import Mathlib

/-!
Shallow embedding of `conda_forge_webservices/github_actions_integration/__main__.py`:
the sandboxed task Runner (`main_run_task`), the trusted Finalizer
(`main_finalize_task`) and the Automerge trigger (`main_automerge`).

External collaborators (`rerender`, `update_version`, `lint_feedstock`,
`get_recipes_for_linting`, `comment_and_push_if_changed`, `update_pr_title`,
git transport, forge API) are not part of the repository's source; they are
modelled as inputs: their outcomes are fields of `RunnerOps` / `FinalizeOps`,
and the functions below record which of them get invoked and with what
arguments, mirroring the control flow of the Python source line by line.
Python runtime errors that the source can raise (AttributeError on
`None.lower()`, UnboundLocalError on `pr_title_error`, TypeError on slicing
`None`, CalledProcessError from `subprocess.run(check=True)`) are modelled
explicitly as `PyError` values.
-/

/-- Per-recipe findings mapping (Python dict `recipe -> list of findings`),
modelled as an association list. -/
abbrev FindingsMap := List (String × List String)

/-- Per-recipe error mapping (Python dict `recipe -> bool`). -/
abbrev ErrorsMap := List (String × Bool)

/-- Python `str.lower()` restricted to the per-character case mapping
(exact on the ASCII inputs the program compares against). -/
def py_lower (s : String) : String := String.mk (s.data.map Char.toLower)

/-- Python truthiness of an optional string: `None` and `""` are falsy. -/
def py_truthy : Option String → Bool
  | none => false
  | some s => s != ""

/-- Python f-string rendering of an optional string: `None` prints as `"None"`. -/
def py_fstr : Option String → String
  | none => "None"
  | some s => s

/-- Python runtime errors the embedded code can raise. -/
inductive PyError where
  | attributeError
  | typeError
  | unboundLocalError
  | calledProcessError
deriving Repr, DecidableEq

/-- The three task kinds accepted by the pipeline. -/
inductive TaskKind where
  | rerender
  | version_update
  | lint
deriving Repr, DecidableEq

/-- Outcome of one invocation of the external `rerender` operation:
`(changed, rerender_error, info_message, commit_message)`. -/
structure RerenderOutcome where
  changed : Bool
  error : Bool
  info_message : Option String
  commit_message : Option String
deriving Repr, DecidableEq

/-- Outcome of the external `update_version` operation:
`(version_changed, version_error, new_version)`. -/
structure VersionOutcome where
  version_changed : Bool
  version_error : Bool
  new_version : Option String
deriving Repr, DecidableEq

/-- Outcome of the external `lint_feedstock` operation: a two-tuple
(findings only), a three-tuple (findings plus per-recipe error flags), or a
raised exception. -/
inductive LintOutcome where
  | ok2 (lints hints : FindingsMap)
  | ok3 (lints hints : FindingsMap) (errors : ErrorsMap)
  | exc
deriving Repr, DecidableEq

/-- Outcomes of the external operations available to one Runner invocation.
`update_version` is a function of the `input_version` argument the Runner
passes to it, so the embedding records which argument was used. `patch` is
the result of `get_git_patch_relative_to_commit`. -/
structure RunnerOps where
  rerender : RerenderOutcome
  update_version : Option String → VersionOutcome
  patch : Option String
  lint : LintOutcome

/-- `task_results` for a rerender task. -/
structure RerenderResults where
  changed : Bool
  rerender_error : Bool
  info_message : Option String
  commit_message : Option String
  patch : Option String
deriving Repr, DecidableEq

/-- `task_results` for a version_update task. -/
structure VersionResults where
  version_changed : Bool
  version_error : Bool
  new_version : Option String
  patch : Option String
  commit_message : Option String
  rerender_changed : Bool
  rerender_error : Bool
  info_message : Option String
deriving Repr, DecidableEq

/-- `task_results` for a lint task. -/
structure LintResults where
  lint_error : Bool
  lints : Option FindingsMap
  hints : Option FindingsMap
  errors : Option ErrorsMap
deriving Repr, DecidableEq

/-- The kind-specific `task_results` mapping of a Task Result. -/
inductive TaskResults where
  | rerenderR (r : RerenderResults)
  | versionR (r : VersionResults)
  | lintR (r : LintResults)
deriving Repr, DecidableEq

/-- Lines 104-109 of the source: the sentinel normalization
`if requested_version.lower() == "null" or requested_version.lower() == "none"
or not requested_version: requested_version = None`.
When `requested_version` is `None` (the click default for an absent
`--requested-version`), `None.lower()` raises AttributeError. -/
def normalize_requested_version : Option String → Except PyError (Option String)
  | none => .error .attributeError
  | some rv =>
      .ok (if py_lower rv == "null" || py_lower rv == "none" || rv == "" then
        none
      else
        some rv)

/-- The rerender branch of `main_run_task` (lines 94-102). -/
def run_rerender_task (ops : RunnerOps) : RerenderResults :=
  { changed := ops.rerender.changed
    rerender_error := ops.rerender.error
    info_message := ops.rerender.info_message
    commit_message := ops.rerender.commit_message
    patch := ops.patch }

/-- The version_update branch of `main_run_task` after sentinel normalization
(lines 115-148): run `update_version` with the given `input_version`; if the
version changed, record the bump message, chain one `rerender` invocation,
and when that rerender changed content append its commit message with the
first five characters (`"MNT: "`) sliced off (`commit_message[len("MNT: "):]`,
a TypeError if the rerender returned `None` for its message); if the version
did not change, force all chained-rerender fields to their defaults. -/
def run_version_task_core (input_version : Option String) (ops : RunnerOps) :
    Except PyError VersionResults :=
  let vo := ops.update_version input_version
  if vo.version_changed then
    let base := "ENH: updated version to " ++ py_fstr vo.new_version
    let ro := ops.rerender
    match ro.changed, ro.commit_message with
    | true, none => .error .typeError
    | true, some m =>
        .ok { version_changed := true
              version_error := vo.version_error
              new_version := vo.new_version
              patch := ops.patch
              commit_message := some (base ++ " & " ++ m.drop 5)
              rerender_changed := true
              rerender_error := ro.error
              info_message := ro.info_message }
    | false, _ =>
        .ok { version_changed := true
              version_error := vo.version_error
              new_version := vo.new_version
              patch := ops.patch
              commit_message := some base
              rerender_changed := false
              rerender_error := ro.error
              info_message := ro.info_message }
  else
    .ok { version_changed := false
          version_error := vo.version_error
          new_version := vo.new_version
          patch := none
          commit_message := none
          rerender_changed := false
          rerender_error := false
          info_message := none }

/-- The lint branch of `main_run_task` (lines 150-172): a two-tuple return
gets an all-false error map keyed by the union of both findings mappings; a
raised exception is caught and converted to `lint_error = true` with all
findings set to `None`. -/
def run_lint_task : LintOutcome → LintResults
  | .ok2 lints hints =>
      let all_keys := (lints.map Prod.fst ++ hints.map Prod.fst).dedup
      { lint_error := false
        lints := some lints
        hints := some hints
        errors := some (all_keys.map fun key => (key, false)) }
  | .ok3 lints hints errors =>
      { lint_error := false
        lints := some lints
        hints := some hints
        errors := some errors }
  | .exc =>
      { lint_error := true, lints := none, hints := none, errors := none }

/-- `main_run_task` (lines 62-188): dispatch on the task kind and build the
Task Result.  A `PyError` means the Runner process crashed with an uncaught
exception before writing a Task Result. -/
def main_run_task (task : TaskKind) (requested_version : Option String)
    (ops : RunnerOps) : Except PyError TaskResults :=
  match task with
  | .rerender => .ok (.rerenderR (run_rerender_task ops))
  | .version_update => do
      let input_version ← normalize_requested_version requested_version
      let r ← run_version_task_core input_version ops
      .ok (.versionR r)
  | .lint => .ok (.lintR (run_lint_task ops.lint))

/-- Live pull-request state as seen by the Finalizer. -/
inductive PRState where
  | isOpen
  | closed
deriving Repr, DecidableEq

/-- The live PullRequestHandle fields the Finalizer reads. -/
structure PullRequest where
  state : PRState
  head_ref : String
  head_owner : String
  head_repo : String
  title : String
  user_login : String
deriving Repr, DecidableEq

/-- One invocation of `comment_and_push_if_changed` (through `_push_changes`)
with the arguments the Finalizer passed to it. -/
structure PushInvocation where
  action : String
  action_error : Bool
  changed : Bool
  close_pr_if_no_changes_or_errors : Bool
deriving Repr, DecidableEq

/-- Outcomes of the external operations available to one Finalizer
invocation: whether `update_pr_title` fails, whether
`comment_and_push_if_changed` reports a push error, whether `git apply`
succeeds, the recipe set returned by `get_recipes_for_linting`, and the
status string returned by `build_and_make_lint_comment` on the no-error
path. -/
structure FinalizeOps where
  title_error : Bool
  push_error : Bool
  apply_ok : Bool
  recipes_to_lint : List String
  lint_status : String
deriving Repr, DecidableEq

/-- The mutating actions one Finalizer run performed, in the order the source
performs them, plus the process exit code (`sys.exit(1)` gives 1). -/
structure FinalizeEffects where
  cloned : Bool := false
  patch_applied : Bool := false
  commit_made : Option String := none
  title_update_attempted : Bool := false
  push_invocations : List PushInvocation := []
  statuses_set : List String := []
  ready_for_review : Bool := false
  lint_comment_posted : Bool := false
  final_lint_error : Option Bool := none
  exit_code : Nat := 0
deriving Repr, DecidableEq

/-- Result of a Finalizer run: the effects performed before it returned, and
the uncaught Python error if it crashed instead of returning. -/
structure FinalizeOutcome where
  effects : FinalizeEffects
  error : Option PyError := none
deriving Repr, DecidableEq

/-- `_push_changes` (lines 191-244): invoke `comment_and_push_if_changed`
and return `action_error or push_error` together with the recorded
invocation. -/
def push_changes (action : String) (action_error changed close_flag : Bool)
    (ops : FinalizeOps) : PushInvocation × Bool :=
  ({ action := action
     action_error := action_error
     changed := changed
     close_pr_if_no_changes_or_errors := close_flag },
   action_error || ops.push_error)

/-- Default commit message substituted when a patch arrives without one
(line 295). -/
def default_commit_message : String := "chore: conda-forge-webservices update"

/-- `main_finalize_task` (lines 249-485).  If the live PR is closed the
function returns at once (lines 273-279) with no effects.  For
rerender/version_update it substitutes a default commit message when a patch
has none, clones, applies the patch (`git apply` with `check=True`: a failure
is an uncaught CalledProcessError), then runs the per-task push/comment,
status, ready-for-review and exit-code logic.  In the version_update branch
`pr_title_error` is only assigned inside the title-update guard (lines
379-392), so reading it at line 424 when the guard was false raises
UnboundLocalError.  The lint branch re-scopes `lint_error` over
`recipes_to_lint` with `errors.get(rec, True)` (lines 432-446). -/
def main_finalize_task (tr : TaskResults) (pr : PullRequest)
    (ops : FinalizeOps) : FinalizeOutcome :=
  if pr.state = .closed then
    { effects := {} }
  else
    match tr with
    | .rerenderR r =>
        let cm := if r.patch.isSome && r.commit_message.isNone then
            some default_commit_message
          else r.commit_message
        if r.patch.isSome && !ops.apply_ok then
          { effects := { cloned := true }, error := some .calledProcessError }
        else
          let inv_cpe := push_changes "rerender" r.rerender_error r.changed false ops
          let cpe := inv_cpe.2
          let status := if !cpe then "success" else "failure"
          let ready := !cpe && pr.title == "MNT: rerender"
            && pr.user_login == "conda-forge-admin"
          { effects :=
              { cloned := true
                patch_applied := r.patch.isSome
                commit_made := cm
                push_invocations := [inv_cpe.1]
                statuses_set := [status]
                ready_for_review := ready
                exit_code := if cpe then 1 else 0 } }
    | .versionR r =>
        let cm := if r.patch.isSome && r.commit_message.isNone then
            some default_commit_message
          else r.commit_message
        if r.patch.isSome && !ops.apply_ok then
          { effects := { cloned := true }, error := some .calledProcessError }
        else
          let title_attempted := !r.version_error && r.version_changed
            && py_truthy r.new_version
          let pr_title_error : Option Bool :=
            if title_attempted then some ops.title_error else none
          let action_error :=
            if r.version_error then true
            else if r.version_changed then r.rerender_error
            else false
          let inv_cpe := push_changes "update the version and rerender"
            action_error r.version_changed true ops
          let cpe := inv_cpe.2
          let base : FinalizeEffects :=
            { cloned := true
              patch_applied := r.patch.isSome
              commit_made := cm
              title_update_attempted := title_attempted
              push_invocations := [inv_cpe.1]
              ready_for_review := !cpe }
          match pr_title_error with
          | none => { effects := base, error := some .unboundLocalError }
          | some te =>
              { effects := { base with exit_code := if te || cpe then 1 else 0 } }
    | .lintR r =>
        let lint_error :=
          match r.lints, r.hints, r.errors with
          | some _, some _, some errs =>
              r.lint_error
                || ops.recipes_to_lint.any fun recipe =>
                    (List.lookup recipe errs).getD true
          | _, _, _ => r.lint_error
        let status := if lint_error then "bad" else ops.lint_status
        { effects :=
            { lint_comment_posted := true
              final_lint_error := some lint_error
              statuses_set := [status]
              exit_code := if lint_error then 1 else 0 } }

/-- An open pull request as listed by the Automerge trigger. -/
structure AutomergePR where
  number : Nat
  head_sha : String
deriving Repr, DecidableEq

/-- The actions one Automerge run performed: elevated-privilege sessions
created, PRs on which `automerge_pr` was invoked, whether the no-match
warning notice was emitted, and the exit code. -/
structure AutomergeEffects where
  admin_sessions : Nat := 0
  merged_prs : List Nat := []
  warned : Bool := false
  exit_code : Nat := 0
deriving Repr, DecidableEq

/-- The `for pr in gh_repo.get_pulls()` loop of `main_automerge` (lines
504-510): each PR whose head SHA matches gets an admin session and an
`automerge_pr` invocation, and sets `found_pr`. -/
def automerge_loop (sha : String) :
    List AutomergePR → Bool → AutomergeEffects → Bool × AutomergeEffects
  | [], found, eff => (found, eff)
  | pr :: rest, found, eff =>
      if pr.head_sha == sha then
        automerge_loop sha rest true
          { eff with
            admin_sessions := eff.admin_sessions + 1
            merged_prs := eff.merged_prs ++ [pr.number] }
      else
        automerge_loop sha rest found eff

/-- `main_automerge` (lines 491-518): scan the open PRs; if none matched,
emit the warning notice.  There is no `sys.exit`, so the exit code is 0. -/
def main_automerge (sha : String) (pulls : List AutomergePR) : AutomergeEffects :=
  let fe := automerge_loop sha pulls false {}
  if !fe.1 then { fe.2 with warned := true } else fe.2

/-! Sample concrete inputs used by witnesses and counterexamples. -/

/-- A sample set of Runner operation outcomes: a version bump that changes
the version, a chained rerender that changes content, and a lint operation
that raises. -/
def sample_runner_ops : RunnerOps :=
  { rerender :=
      { changed := true, error := false, info_message := none, commit_message := some "MNT: rerender" }
    update_version := fun _ =>
      { version_changed := true, version_error := false, new_version := some "1.2" }
    patch := some "diff --git a/f b/f"
    lint := .exc }

/-- A sample set of Runner operation outcomes whose version bump reports no
version change (with a version error and a detected version, to exercise
field propagation). -/
def sample_runner_ops_unchanged : RunnerOps :=
  { rerender :=
      { changed := true, error := true, info_message := some "boom", commit_message := some "MNT: rerender" }
    update_version := fun _ =>
      { version_changed := false, version_error := true, new_version := some "9.9" }
    patch := some "diff --git a/f b/f"
    lint := .ok2 [] [] }

/-- A sample open pull request. -/
def sample_open_pr : PullRequest :=
  { state := .isOpen, head_ref := "main", head_owner := "contributor",
    head_repo := "pkg-feedstock", title := "Update pkg", user_login := "contributor" }

/-- A sample closed pull request. -/
def sample_closed_pr : PullRequest :=
  { state := .closed, head_ref := "main", head_owner := "contributor",
    head_repo := "pkg-feedstock", title := "MNT: rerender", user_login := "conda-forge-admin" }

/-- A sample set of Finalizer operation outcomes. -/
def sample_finalize_ops : FinalizeOps :=
  { title_error := false, push_error := false, apply_ok := true,
    recipes_to_lint := ["b"], lint_status := "good" }

/-- A version_update Task Result in which the version did not change and
nothing errored (the Runner's output for an up-to-date feedstock). -/
def c3_version_results : VersionResults :=
  { version_changed := false, version_error := false, new_version := none,
    patch := none, commit_message := none, rerender_changed := false,
    rerender_error := false, info_message := none }

/-- A version_update Task Result with a changed version and a failed chained
rerender. -/
def c2_version_results : VersionResults :=
  { version_changed := true, version_error := false, new_version := some "2.0",
    patch := some "diff", commit_message := some "ENH: updated version to 2.0",
    rerender_changed := false, rerender_error := true, info_message := none }

/-- The push invocation the Finalizer records for `c2_version_results`
against `sample_finalize_ops`. -/
def c2_push_invocation : PushInvocation :=
  { action := "update the version and rerender", action_error := true,
    changed := true, close_pr_if_no_changes_or_errors := true }

/-- The lint Task Result of claim C8: non-null findings, per-recipe error
map `{"a": true, "b": false}`, no global error flag (the Runner never sets
the global flag when the findings are non-null, cf.
`run_lint_task_nonnull_findings_no_flag`). -/
def c8_lint_results (lints hints : FindingsMap) : LintResults :=
  { lint_error := false, lints := some lints, hints := some hints,
    errors := some [("a", true), ("b", false)] }

/-- A lint Task Result whose in-scope recipe `"c"` is absent from the error
mapping. -/
def c10_lint_results : LintResults :=
  { lint_error := false, lints := some [("c", ["lint1"])], hints := some [("c", [])],
    errors := some [("a", true)] }

/-- Finalizer operation outcomes whose re-derived in-scope recipe set is
`["c"]`. -/
def c10_finalize_ops : FinalizeOps :=
  { title_error := false, push_error := false, apply_ok := true,
    recipes_to_lint := ["c"], lint_status := "good" }

/-- A sample rerender Task Result. -/
def sample_rerender_results : RerenderResults :=
  { changed := true, rerender_error := false, info_message := none,
    commit_message := some "MNT: rerender", patch := some "diff" }

/-! Helper lemmas. -/

/-- Python's `commit_message[len("MNT: "):]` on a message of the shape
`"MNT: " ++ rest` yields `rest`. -/
theorem drop_mnt_marker (rest : String) : ("MNT: " ++ rest).drop 5 = rest := by
  have h : ("MNT: " ++ rest).data = "MNT: ".data ++ rest.data := by
    simp [String.data_append]
  apply String.ext
  simp [String.drop_eq, h]

/-- Runner invariant: whenever the lint Task Result carries a non-null error
mapping, its global `lint_error` flag is false (the flag is set only on the
exception path, which nulls all findings). -/
theorem run_lint_task_nonnull_findings_no_flag (o : LintOutcome)
    (h : (run_lint_task o).errors.isSome = true) :
    (run_lint_task o).lint_error = false := by
  cases o <;> simp [run_lint_task] at h ⊢

/-- The automerge scan leaves its accumulator untouched when no listed PR
head matches the commit SHA. -/
theorem automerge_loop_no_match (sha : String) (pulls : List AutomergePR)
    (found : Bool) (eff : AutomergeEffects)
    (h : ∀ pr ∈ pulls, pr.head_sha ≠ sha) :
    automerge_loop sha pulls found eff = (found, eff) := by
  induction pulls with
  | nil => rfl
  | cons p rest ih =>
      have hp : (p.head_sha == sha) = false := by
        simpa using h p (List.mem_cons_self p rest)
      simp [automerge_loop, hp, ih (fun q hq => h q (List.mem_cons_of_mem p hq))]

/-! Claim theorems. -/

/-- Claim C1: for every Task Result of kind rerender, version_update or
lint, if the live pull request is closed when the Finalizer resolves it, the
Finalizer returns with no clone, no patch application, no commit, no push or
comment invocation, no status set, no ready-for-review transition, exit code
0 and no crash. -/
theorem finalize_closed_pr_is_noop (tr : TaskResults) (pr : PullRequest)
    (ops : FinalizeOps) (hclosed : pr.state = .closed) :
    main_finalize_task tr pr ops =
      { effects :=
          { cloned := false, patch_applied := false, commit_made := none,
            title_update_attempted := false, push_invocations := [],
            statuses_set := [], ready_for_review := false,
            lint_comment_posted := false, final_lint_error := none,
            exit_code := 0 }
        error := none } := by
  simp [main_finalize_task, hclosed]

/-- Witness for C1: a concrete closed PR with a rerender Task Result. -/
theorem finalize_closed_pr_is_noop_witness :
    sample_closed_pr.state = .closed ∧
    main_finalize_task (.rerenderR sample_rerender_results)
        sample_closed_pr sample_finalize_ops =
      { effects :=
          { cloned := false, patch_applied := false, commit_made := none,
            title_update_attempted := false, push_invocations := [],
            statuses_set := [], ready_for_review := false,
            lint_comment_posted := false, final_lint_error := none,
            exit_code := 0 }
        error := none } :=
  ⟨rfl, finalize_closed_pr_is_noop _ sample_closed_pr sample_finalize_ops rfl⟩

/-- Claim C5: for every lint task, an exception raised by the lint operation
is caught: the Runner still returns normally (no crash) with a Task Result
whose `lint_error` is true and whose `lints`, `hints` and `errors` are all
null. -/
theorem lint_exception_never_crashes (rv : Option String) (ops : RunnerOps)
    (h : ops.lint = .exc) :
    main_run_task .lint rv ops =
      .ok (.lintR { lint_error := true, lints := none, hints := none, errors := none }) := by
  simp [main_run_task, run_lint_task, h]

/-- Witness for C5: a concrete Runner whose lint operation raises. -/
theorem lint_exception_never_crashes_witness :
    sample_runner_ops.lint = .exc ∧
    main_run_task .lint none sample_runner_ops =
      .ok (.lintR { lint_error := true, lints := none, hints := none, errors := none }) :=
  ⟨rfl, lint_exception_never_crashes none sample_runner_ops rfl⟩

/-- Claim C6: for every version_update task whose version-update operation
reports no version change, the Task Result carries `rerender_changed =
false`, `rerender_error = false`, `info_message = null`, `commit_message =
null` and `patch = null`.  The right-hand side mentions neither `ops.rerender`
nor `ops.patch`, and both are universally quantified, so the rerender
outcome has no influence on the result: the rerender operation is never
invoked on an unchanged version. -/
theorem version_unchanged_forces_defaults (iv : Option String) (ops : RunnerOps)
    (h : (ops.update_version iv).version_changed = false) :
    run_version_task_core iv ops =
      .ok { version_changed := false
            version_error := (ops.update_version iv).version_error
            new_version := (ops.update_version iv).new_version
            patch := none
            commit_message := none
            rerender_changed := false
            rerender_error := false
            info_message := none } := by
  simp [run_version_task_core, h]

/-- Witness for C6: a concrete Runner whose version bump reports no
change (while its rerender outcome would have changed content and errored,
showing that outcome is ignored). -/
theorem version_unchanged_forces_defaults_witness :
    (sample_runner_ops_unchanged.update_version none).version_changed = false ∧
    run_version_task_core none sample_runner_ops_unchanged =
      .ok { version_changed := false
            version_error := true
            new_version := some "9.9"
            patch := none
            commit_message := none
            rerender_changed := false
            rerender_error := false
            info_message := none } :=
  ⟨rfl, version_unchanged_forces_defaults none sample_runner_ops_unchanged rfl⟩

/-- Claim C9: an automerge invocation in which no open pull request's head
SHA equals the given SHA emits the warning notice, exits with code 0,
creates no elevated-privilege session and invokes the merge on no PR. -/
theorem automerge_no_matching_pr (sha : String) (pulls : List AutomergePR)
    (h : ∀ pr ∈ pulls, pr.head_sha ≠ sha) :
    main_automerge sha pulls =
      { admin_sessions := 0, merged_prs := [], warned := true, exit_code := 0 } := by
  simp [main_automerge, automerge_loop_no_match sha pulls false {} h]

/-- Witness for C9: two open PRs, neither matching the SHA. -/
theorem automerge_no_matching_pr_witness :
    (∀ pr ∈ [AutomergePR.mk 1 "abc", AutomergePR.mk 2 "def"], pr.head_sha ≠ "0123") ∧
    main_automerge "0123" [AutomergePR.mk 1 "abc", AutomergePR.mk 2 "def"] =
      { admin_sessions := 0, merged_prs := [], warned := true, exit_code := 0 } :=
  ⟨by decide, automerge_no_matching_pr "0123" _ (by decide)⟩

/-- Counterexample to claim C4 as stated: on the absent requested-version
input (the click default `None`), the Runner does not normalize and proceed
— `requested_version.lower()` raises AttributeError before the falsy check,
so the Runner crashes. -/
theorem run_task_absent_version_crashes :
    main_run_task .version_update none sample_runner_ops = .error .attributeError := rfl

/-- Claim C4 (amended): for every requested-version value that is a present
string that is empty or whose lowercase form equals "null" or "none", the
normalization yields `None` without crashing and the version-update
operation is invoked with `input_version = None` (the run equals the
version-update branch entered with `None`); an absent (`None`)
requested-version input instead crashes the Runner with an AttributeError. -/
theorem version_sentinel_normalized_to_none (rv : String) (ops : RunnerOps)
    (h : py_lower rv = "null" ∨ py_lower rv = "none" ∨ rv = "") :
    normalize_requested_version (some rv) = .ok none ∧
    main_run_task .version_update (some rv) ops =
      (run_version_task_core none ops).bind (fun r => .ok (.versionR r)) ∧
    main_run_task .version_update none ops = .error .attributeError := by
  have hn : normalize_requested_version (some rv) = .ok none := by
    rcases h with h | h | h <;> simp [normalize_requested_version, h]
  refine ⟨hn, ?_, rfl⟩
  simp [main_run_task, hn]
  rfl

/-- Witness for C4 (amended): the concrete sentinel input "NULL". -/
theorem version_sentinel_normalized_to_none_witness :
    (py_lower "NULL" = "null" ∨ py_lower "NULL" = "none" ∨ "NULL" = "") ∧
    (normalize_requested_version (some "NULL") = .ok none ∧
      main_run_task .version_update (some "NULL") sample_runner_ops =
        (run_version_task_core none sample_runner_ops).bind (fun r => .ok (.versionR r)) ∧
      main_run_task .version_update none sample_runner_ops = .error .attributeError) :=
  ⟨Or.inl (by decide),
   version_sentinel_normalized_to_none "NULL" sample_runner_ops (Or.inl (by decide))⟩

/-- Claim C7: for every version_update task where the version changed and
the chained rerender changed content, the combined commit message equals the
version-bump message `"ENH: updated version to {new_version}"`, then `" & "`,
then the rerender's commit message with its fixed `"MNT: "` prefix removed. -/
theorem version_chained_commit_message (iv : Option String) (ops : RunnerOps)
    (rest : String)
    (hv : (ops.update_version iv).version_changed = true)
    (hc : ops.rerender.changed = true)
    (hm : ops.rerender.commit_message = some ("MNT: " ++ rest)) :
    ∃ res, run_version_task_core iv ops = .ok res ∧
      res.commit_message = some ("ENH: updated version to "
        ++ py_fstr (ops.update_version iv).new_version ++ " & " ++ rest) := by
  have hres : run_version_task_core iv ops =
      .ok { version_changed := true
            version_error := (ops.update_version iv).version_error
            new_version := (ops.update_version iv).new_version
            patch := ops.patch
            commit_message := some ("ENH: updated version to "
              ++ py_fstr (ops.update_version iv).new_version ++ " & " ++ rest)
            rerender_changed := true
            rerender_error := ops.rerender.error
            info_message := ops.rerender.info_message } := by
    simp [run_version_task_core, hv, hc, hm, drop_mnt_marker]
  exact ⟨_, hres, rfl⟩

/-- Witness for C7: a version bump to 1.2 chained with a content-changing
rerender whose commit message is "MNT: rerender". -/
theorem version_chained_commit_message_witness :
    (sample_runner_ops.update_version none).version_changed = true ∧
    sample_runner_ops.rerender.changed = true ∧
    sample_runner_ops.rerender.commit_message = some ("MNT: " ++ "rerender") ∧
    ∃ res, run_version_task_core none sample_runner_ops = .ok res ∧
      res.commit_message = some ("ENH: updated version to "
        ++ py_fstr (sample_runner_ops.update_version none).new_version
        ++ " & " ++ "rerender") :=
  ⟨rfl, rfl, by decide,
   version_chained_commit_message none sample_runner_ops "rerender" rfl rfl (by decide)⟩

/-- Claim C2: whenever the version_update Finalizer invokes the
reconciliation push/comment step, the `action_error` it passes equals
`version_error OR (rerender_error AND version_changed)`; in particular a
rerender error on an unchanged version is not reported. -/
theorem finalize_version_action_error_formula (r : VersionResults)
    (pr : PullRequest) (ops : FinalizeOps) (inv : PushInvocation)
    (hmem : inv ∈ (main_finalize_task (.versionR r) pr ops).effects.push_invocations) :
    inv.action_error = (r.version_error || (r.version_changed && r.rerender_error)) := by
  have hae : (if r.version_error then true
      else if r.version_changed then r.rerender_error else false)
      = (r.version_error || (r.version_changed && r.rerender_error)) := by
    cases r.version_error <;> cases r.version_changed <;> simp
  rcases pr with ⟨st, hrf, how, hrp, ti, ul⟩
  cases st
  case closed => simp [main_finalize_task] at hmem
  case isOpen =>
    by_cases happ : (r.patch.isSome && !ops.apply_ok) = true
    · simp [main_finalize_task, happ] at hmem
    · cases hta : (!r.version_error && r.version_changed && py_truthy r.new_version) <;>
        simp [main_finalize_task, happ, hta, push_changes] at hmem <;>
        simp [hmem, hae]

/-- Witness for C2: a changed version with a failed chained rerender, so
`action_error = false OR (true AND true) = true` is passed to the push
step. -/
theorem finalize_version_action_error_formula_witness :
    c2_push_invocation ∈ (main_finalize_task (.versionR c2_version_results)
        sample_open_pr sample_finalize_ops).effects.push_invocations ∧
    c2_push_invocation.action_error =
      (c2_version_results.version_error
        || (c2_version_results.version_changed && c2_version_results.rerender_error)) :=
  ⟨by decide,
   finalize_version_action_error_formula c2_version_results sample_open_pr
     sample_finalize_ops c2_push_invocation (by decide)⟩

/-- Claim C3 fails on the code: finalizing a version_update Task Result
against an open PR when the title update was never attempted (here: the
version did not change and nothing errored) reads the never-assigned local
`pr_title_error` at line 424 and crashes with UnboundLocalError — a
non-zero process exit — where the claim requires a normal exit with code 0.
The push/comment step itself had succeeded (`action_error = false`,
`push_error = false`) and the PR had been marked ready for review before the
crash. -/
theorem finalize_version_unbound_local_crash :
    (main_finalize_task (.versionR c3_version_results) sample_open_pr
        sample_finalize_ops).error = some .unboundLocalError ∧
    (main_finalize_task (.versionR c3_version_results) sample_open_pr
        sample_finalize_ops).effects.push_invocations =
      [{ action := "update the version and rerender", action_error := false,
         changed := false, close_pr_if_no_changes_or_errors := true }] ∧
    (main_finalize_task (.versionR c3_version_results) sample_open_pr
        sample_finalize_ops).effects.ready_for_review = true := by
  refine ⟨rfl, ?_, rfl⟩
  rfl

/-- Claim C8: for a lint Task Result with non-null findings and error map
`{"a": true, "b": false}` (and no global error flag — the Runner never sets
the flag when findings are non-null, cf.
`run_lint_task_nonnull_findings_no_flag`), the final lint error state is
decided by the re-derived in-scope recipe set: if only `"b"` is in scope the
run succeeds (exit code 0); if `"a"` is in scope it fails (exit code 1,
status "bad"). -/
theorem lint_error_scoped_to_recipe_set (lints hints : FindingsMap)
    (pr : PullRequest) (ops : FinalizeOps) (hopen : pr.state = .isOpen) :
    (ops.recipes_to_lint = ["b"] →
      (main_finalize_task (.lintR (c8_lint_results lints hints)) pr
          ops).effects.final_lint_error = some false ∧
      (main_finalize_task (.lintR (c8_lint_results lints hints)) pr
          ops).effects.exit_code = 0) ∧
    ("a" ∈ ops.recipes_to_lint →
      (main_finalize_task (.lintR (c8_lint_results lints hints)) pr
          ops).effects.final_lint_error = some true ∧
      (main_finalize_task (.lintR (c8_lint_results lints hints)) pr
          ops).effects.exit_code = 1 ∧
      (main_finalize_task (.lintR (c8_lint_results lints hints)) pr
          ops).effects.statuses_set = ["bad"]) := by
  constructor
  · intro hb
    constructor <;> simp [main_finalize_task, hopen, hb, c8_lint_results, List.lookup]
  · intro ha
    have hany : (ops.recipes_to_lint.any fun recipe =>
        (List.lookup recipe [("a", true), ("b", false)]).getD true) = true :=
      List.any_eq_true.mpr ⟨"a", ha, by decide⟩
    refine ⟨?_, ?_, ?_⟩ <;> simp [main_finalize_task, hopen, c8_lint_results, hany]

/-- Witness for C8: in-scope set `["b"]` yields success. -/
theorem lint_error_scoped_to_recipe_set_witness :
    sample_open_pr.state = .isOpen ∧
    ((main_finalize_task (.lintR (c8_lint_results [("a", ["x"])] [("b", [])]))
        sample_open_pr sample_finalize_ops).effects.final_lint_error = some false ∧
      (main_finalize_task (.lintR (c8_lint_results [("a", ["x"])] [("b", [])]))
        sample_open_pr sample_finalize_ops).effects.exit_code = 0) :=
  ⟨rfl,
   (lint_error_scoped_to_recipe_set [("a", ["x"])] [("b", [])] sample_open_pr
     sample_finalize_ops rfl).1 rfl⟩

/-- Claim C10: during lint finalization the re-scoping step only escalates:
a true `lint_error` in the Task Result is never cleared, and an in-scope
recipe absent from the `errors` mapping defaults to errored
(`errors.get(rec, True)`), forcing the failure path. -/
theorem lint_rescope_escalates_only (r : LintResults) (pr : PullRequest)
    (ops : FinalizeOps) (hopen : pr.state = .isOpen) :
    (r.lint_error = true →
      (main_finalize_task (.lintR r) pr ops).effects.final_lint_error = some true) ∧
    (∀ lints hints errs recipe, r.lints = some lints → r.hints = some hints →
      r.errors = some errs → recipe ∈ ops.recipes_to_lint →
      List.lookup recipe errs = none →
      (main_finalize_task (.lintR r) pr ops).effects.final_lint_error = some true) := by
  constructor
  · intro hle
    rcases hl : r.lints with _ | l <;> rcases hh : r.hints with _ | hs <;>
      rcases he : r.errors with _ | es <;>
      simp [main_finalize_task, hopen, hle, hl, hh, he]
  · intro lints hints errs recipe hl hh he hmem hlook
    have hany : (ops.recipes_to_lint.any fun recipe0 =>
        (List.lookup recipe0 errs).getD true) = true :=
      List.any_eq_true.mpr ⟨recipe, hmem, by simp [hlook]⟩
    simp [main_finalize_task, hopen, hl, hh, he, hany]

/-- Witness for C10: the in-scope recipe `"c"` is absent from the error
mapping `{"a": true}`, so the lookup defaults to true and the task is marked
errored. -/
theorem lint_rescope_escalates_only_witness :
    sample_open_pr.state = .isOpen ∧
    (main_finalize_task (.lintR c10_lint_results) sample_open_pr
        c10_finalize_ops).effects.final_lint_error = some true :=
  ⟨rfl,
   (lint_rescope_escalates_only c10_lint_results sample_open_pr c10_finalize_ops
       rfl).2 [("c", ["lint1"])] [("c", [])] [("a", true)] "c" rfl rfl rfl
     (by decide) rfl⟩
